import Mathlib

/-!
Verification development for the HiddenThread similarity-matching and
suggestion-generation pipeline.

The definitions below are a shallow embedding of the Python sources:
  - `src/vector_store/faiss_handler.py` (`FAISSHandler`: `add`, `search`)
  - `src/main.py` (`find_and_generate_suggestions`, `main`, entry building)
  - `src/api.py` (`find_connections_and_generate_suggestions`, `submit_notes`)
  - `src/llm/sgllm.py` (`SuggestionGenerator.generate`)

Real-valued similarity scores (numpy float32 in the source) are modelled as
rationals; external collaborators (the FAISS library's raw search, the
sklearn cosine-similarity matrix, the embedding model and the LLM HTTP
calls) are modelled as explicit parameters/oracles at the exact boundary
where the repository's own code consumes them.
-/

/-- One extracted phrase, as built by `main.py` / `api.py`: the Python code
represents it as the tuple `(text, kind, note_id)` where `kind` is the
string `"need"` or `"availability"`. -/
structure Entry where
  text : String
  kind : String
  noteId : Nat
deriving DecidableEq

/-- One note's parsed NAT extraction result after the `setdefault` calls:
`resources_needed`, `resources_available` and the note's `id`. -/
structure NoteNAT where
  resources_needed : List String
  resources_available : List String
  id : Nat
deriving DecidableEq

/-- Entry builder, translated from the loop in `src/main.py` (and the
identical loop in `src/api.py` `submit_notes`):

    entries = []
    for nat in nats:
        for need in nat.get("resources_needed", []):
            entries.append((need, "need", nat["id"]))
        for availability in nat.get("resources_available", []):
            entries.append((availability, "availability", nat["id"]))

A list position in the result is the entry's pipeline position. -/
def buildEntries (nats : List NoteNAT) : List Entry :=
  nats.foldl
    (fun acc nat =>
      let acc1 := nat.resources_needed.foldl
        (fun a t => a ++ [Entry.mk t "need" nat.id]) acc
      nat.resources_available.foldl
        (fun a t => a ++ [Entry.mk t "availability" nat.id]) acc1)
    []

/-- Inner product of two vectors, the metric of `faiss.IndexFlatIP`. -/
def innerProduct (q v : List ℚ) : ℚ :=
  (List.zipWith (fun a b => a * b) q v).sum

/-- Exact rational stand-in for the most negative finite float32
(`-FLT_MAX`), the score FAISS reports for padding slots (label `-1`)
when fewer than `k` stored vectors exist. -/
def negFltMax : ℚ := -340282346638528859811704183484516925440

/-- Insert a `(label, score)` pair into a list kept in non-increasing
score order. -/
def insertScoreDesc (p : ℤ × ℚ) : List (ℤ × ℚ) → List (ℤ × ℚ)
  | [] => [p]
  | q :: rest => if p.2 > q.2 then p :: q :: rest else q :: insertScoreDesc p rest

/-- Sort `(label, score)` pairs by non-increasing score. -/
def sortScoresDesc (l : List (ℤ × ℚ)) : List (ℤ × ℚ) :=
  l.foldr insertScoreDesc []

/-- Top-`k` selection of `faiss.IndexFlatIP.search` for one query row:
the `k` best `(label, score)` pairs by descending score, padded with
`(-1, -FLT_MAX)` slots when the index holds fewer than `k` vectors. -/
def topK (scores : List ℚ) (k : Nat) : List (ℤ × ℚ) :=
  let kept := (sortScoresDesc (scores.enum.map (fun p => ((p.1 : ℤ), p.2)))).take k
  kept ++ List.replicate (k - kept.length) (-1, negFltMax)

/-- Model of the external `self.index.search(query, top_k)` call on a
`faiss.IndexFlatIP`: brute-force inner-product top-k per query row.
FAISS raises (dimension assertion) when a query row's width differs from
the index dimension; that is the `Except.error` branch. -/
def indexFlatIPSearch (dim : Nat) (stored : List (List ℚ))
    (queries : List (List ℚ)) (k : Nat) :
    Except String (List (List (ℤ × ℚ))) :=
  if queries.all (fun q => q.length = dim) then
    .ok (queries.map (fun q => topK (stored.map (fun v => innerProduct q v)) k))
  else
    .error "query dimension mismatch"

/-- The result-filter loop of `FAISSHandler.search`
(`src/vector_store/faiss_handler.py`), with the row counter made explicit:

    for i, idx_list in enumerate(indices):
        for j, idx in enumerate(idx_list):
            if scores[i][j] > threshold and idx != i:
                results.append((i, idx, scores[i][j]))

Each row is the list of `(idx, score)` hit pairs for one query. -/
def searchFilterAux (threshold : ℚ) (i : Nat) :
    List (List (ℤ × ℚ)) → List (Nat × ℤ × ℚ)
  | [] => []
  | row :: rest =>
      row.filterMap
        (fun h => if h.2 > threshold ∧ h.1 ≠ (i : ℤ) then some (i, h.1, h.2) else none)
      ++ searchFilterAux threshold (i + 1) rest

/-- The filter loop started at row 0, as in the source. -/
def searchFilter (rows : List (List (ℤ × ℚ))) (threshold : ℚ) :
    List (Nat × ℤ × ℚ) :=
  searchFilterAux threshold 0 rows

/-- `FAISSHandler` state: the configured dimension (`dim=384` by default in
`__init__`) and the stored vectors of its `IndexFlatIP`. -/
structure FAISSHandler where
  dim : Nat := 384
  vectors : List (List ℚ)

/-- `FAISSHandler.add`: appends the batch to the index
(the 1-D reshape special case is the one-element batch). -/
def FAISSHandler.add (h : FAISSHandler) (vs : List (List ℚ)) : FAISSHandler :=
  { h with vectors := h.vectors ++ vs }

/-- `FAISSHandler.search`: runs the raw FAISS search and the filter loop
inside a `try`; any exception (notably the dimension assertion) is caught
and an empty result list is returned. -/
def FAISSHandler.search (h : FAISSHandler) (query : List (List ℚ))
    (top_k : Nat) (threshold : ℚ) : List (Nat × ℤ × ℚ) :=
  match indexFlatIPSearch h.dim h.vectors query top_k with
  | .ok rows => searchFilter rows threshold
  | .error _ => []

/-- `SuggestionGenerator.generate` (`src/llm/sgllm.py`): the HTTP call and
response parsing are the external part, modelled as an `Except` outcome
(`ok` = the extracted candidate text, `error` = any
`requests.exceptions.RequestException`, `KeyError`, `IndexError` or
`json.JSONDecodeError`). On any error the function logs and returns the
literal fallback string. -/
def sgllmGenerate (response : Except String String) : String :=
  match response with
  | .ok text => text
  | .error _ => "Could not generate a suggestion due to an error."

/-- The pair-collection loop of `find_connections_and_generate_suggestions`
(`src/api.py`), over the sklearn cosine-similarity matrix `sim`:

    for i in range(len(embeddings)):
        for j in range(len(embeddings)):
            if i != j and similarity_matrix[i][j] > SIMILARITY_THRESHOLD:
                similar_pairs.append((i, j, float(similarity_matrix[i][j])))
-/
def apiSimilarPairs (n : Nat) (sim : Nat → Nat → ℚ) (threshold : ℚ) :
    List (Nat × Nat × ℚ) :=
  (List.range n).flatMap (fun i =>
    (List.range n).filterMap (fun j =>
      if i ≠ j ∧ sim i j > threshold then some (i, j, sim i j) else none))

/-- The api-level suggestion record exactly as `src/api.py` appends it:

    suggestions.append({
        "id": f"sugg_{suggestion_id}",
        "noteId": str(need_note_id),
        "need": need_text,
        "availability": availability_text,
        "suggestion": suggestion_text
    })
-/
structure ApiSuggestion where
  id : String
  noteId : String
  need : String
  availability : String
  suggestion : String
deriving DecidableEq

/-- The type-compatibility gate of the api loop body: looks up both entries
(tuple fields `[1]` = kind, from the pair's positions) and retains the pair
only when the query entry is a `"need"` and the result entry an
`"availability"`. -/
def retainedPair (entries : List Entry) (p : Nat × Nat × ℚ) :
    Option (Entry × Entry) :=
  match entries[p.1]?, entries[p.2.1]? with
  | some e1, some e2 =>
      if e1.kind = "need" ∧ e2.kind = "availability" then some (e1, e2) else none
  | _, _ => none

/-- One iteration of the api suggestion loop: state is the accumulated
suggestion list together with the `suggestion_id` counter (starts at 1).
The generator oracle `gen` is indexed by the number of LLM calls already
made (one per retained pair); its outcome feeds `sgllmGenerate`. -/
def apiStep (entries : List Entry) (gen : Nat → Except String String)
    (st : List ApiSuggestion × Nat) (p : Nat × Nat × ℚ) :
    List ApiSuggestion × Nat :=
  match retainedPair entries p with
  | some (e1, e2) =>
      (st.1 ++ [{ id := "sugg_" ++ toString st.2,
                  noteId := toString e1.noteId,
                  need := e1.text,
                  availability := e2.text,
                  suggestion := sgllmGenerate (gen st.1.length) }], st.2 + 1)
  | none => st

/-- `find_connections_and_generate_suggestions` (`src/api.py`): collects the
above-threshold non-diagonal pairs (threshold constant 0.001), then runs the
suggestion loop. `sim` stands for the externally computed
`cosine_similarity(embeddings)` matrix; at the call site in `submit_notes`
the embedding batch has exactly one row per entry, so the loop bound is the
entry count. -/
def findConnections (entries : List Entry) (sim : Nat → Nat → ℚ)
    (gen : Nat → Except String String) : List ApiSuggestion :=
  ((apiSimilarPairs entries.length sim (1 / 1000)).foldl
    (apiStep entries gen) ([], 1)).1

/-- Recursive characterisation of the api suggestion loop: `calls` counts
the generator invocations so far and `sid` is the current value of the
`suggestion_id` counter. -/
def apiBuild (entries : List Entry) (gen : Nat → Except String String) :
    Nat → Nat → List (Nat × Nat × ℚ) → List ApiSuggestion
  | _, _, [] => []
  | calls, sid, p :: rest =>
      match retainedPair entries p with
      | some (e1, e2) =>
          { id := "sugg_" ++ toString sid,
            noteId := toString e1.noteId,
            need := e1.text,
            availability := e2.text,
            suggestion := sgllmGenerate (gen calls) } ::
          apiBuild entries gen (calls + 1) (sid + 1) rest
      | none => apiBuild entries gen calls sid rest

/-- Projection that forgets only the generated suggestion text; used to
state that the generator outcomes cannot influence anything else. -/
def eraseSuggestionText (s : ApiSuggestion) : ApiSuggestion :=
  { s with suggestion := "" }

/-- Python list lookup `entries[idx]` with an `int64` index as the FAISS
labels are: a negative index counts from the end, and an index out of
range raises `IndexError` (the `none` case). -/
def pyGet {α : Type} (l : List α) (i : ℤ) : Option α :=
  if 0 ≤ i then l[i.toNat]?
  else if 0 ≤ (l.length : ℤ) + i then l[((l.length : ℤ) + i).toNat]?
  else none

/-- One iteration of the suggestion loop in `find_and_generate_suggestions`
(`src/main.py`): looks up both entries of a search triple, and only when
the query entry is a `"need"` and the result entry an `"availability"` does
it call the generator and print the suggestion panel. The panel's contents
(need text, availability text, suggestion text, similarity score) are the
returned record; `gen` abstracts `sgllm.generate`, which is total (it
returns its fixed fallback string on any caught error). -/
def suggestOne (entries : List Entry) (gen : String → String → String)
    (p : Nat × ℤ × ℚ) : Option (String × String × String × ℚ) :=
  match entries[p.1]?, pyGet entries p.2.1 with
  | some e1, some e2 =>
      if e1.kind = "need" ∧ e2.kind = "availability" then
        some (e1.text, e2.text, gen e1.text e2.text, p.2.2)
      else none
  | _, _ => none

/-- The full suggestion loop of `find_and_generate_suggestions` over the
filtered search triples, in order. -/
def suggestFromPairs (entries : List Entry) (gen : String → String → String)
    (pairs : List (Nat × ℤ × ℚ)) : List (String × String × String × ℚ) :=
  pairs.filterMap (suggestOne entries gen)

/-- `find_and_generate_suggestions` (`src/main.py`): early-returns on an
empty entry list (no search call), otherwise searches the index with
`top_k=5` and the given threshold and runs the suggestion loop (an empty
pair list just produces no panels). -/
def findAndGenerateSuggestions (entries : List Entry)
    (embeddings : List (List ℚ)) (indexer : FAISSHandler)
    (gen : String → String → String) (threshold : ℚ) :
    List (String × String × String × ℚ) :=
  if entries.isEmpty then []
  else suggestFromPairs entries gen (indexer.search embeddings 5 threshold)

/-- The methods the `FAISSHandler` class actually defines
(`src/vector_store/faiss_handler.py`): `__init__`, `add` and `search`.
Accessing any other attribute on an instance raises `AttributeError`. -/
def faissHandlerMethods : List String := ["__init__", "add", "search"]

/-- The method list `main.py` relies on: the defined ones plus the
persistence methods it calls (`load_index`, `save_index`), which the class
does not define. Runs of the model with this list expose the code that sits
behind the two persistence calls. -/
def faissMethodsWithPersistence : List String :=
  faissHandlerMethods ++ ["load_index", "save_index"]

/-- Outcome of one `main()` run (`src/main.py`):
`missingKey`/`noNotes`/`noEntries` are the early `return`s with a printed
message, `finished` is a run that reaches the end of
`find_and_generate_suggestions` with the printed suggestion panels, and
`attributeError` is an uncaught `AttributeError` escaping `main` (naming
the missing attribute). -/
inductive MainResult where
  | missingKey
  | noNotes
  | noEntries
  | finished (panels : List (String × String × String × ℚ))
  | attributeError (method : String)
deriving DecidableEq

/-- Everything `main()` reads from its surroundings: the environment
variable, which artifact files exist, the artifact contents a successful
load would produce, the notes file, and the three external collaborators
(NAT extraction outcome per note index, embedder, suggestion generator). -/
structure MainEnv where
  apiKey : Option String
  artifactsExist : Bool
  loadedDim : Nat
  loadedVectors : List (List ℚ)
  loadedEntries : List Entry
  loadedEmbeddings : List (List ℚ)
  notes : List String
  extract : Nat → Option (List String × List String)
  embed : String → List ℚ
  generate : String → String → String

/-- `SIMILARITY_THRESHOLD` from `src/main.py`. -/
def SIMILARITY_THRESHOLD : ℚ := 3 / 10

/-- The parsed-and-defaulted NAT list `main()` builds: one `NoteNAT` per
note whose extraction output parsed (note index as `id`), parse failures
skipped. -/
def natsOf (env : MainEnv) : List NoteNAT :=
  (List.range env.notes.length).filterMap (fun i =>
    (env.extract i).map (fun r => NoteNAT.mk r.1 r.2 i))

/-- The rebuild branch of `main()` ("Building index from scratch"):
load notes (early return if none), extract and build entries (early return
if none), embed, `indexer.add`, then `indexer.save_index` — an attribute
lookup that precedes `find_and_generate_suggestions`. -/
def rebuildWith (methods : List String) (env : MainEnv) : MainResult :=
  if env.notes.isEmpty then .noNotes
  else
    let entries := buildEntries (natsOf env)
    if entries.isEmpty then .noEntries
    else
      let embeddings := entries.map (fun e => env.embed e.text)
      let indexer := FAISSHandler.add { dim := 384, vectors := [] } embeddings
      if "save_index" ∈ methods then
        .finished (findAndGenerateSuggestions entries embeddings indexer
          env.generate SIMILARITY_THRESHOLD)
      else .attributeError "save_index"

/-- `main()` (`src/main.py`), parametric in the attribute set of the
indexer object: missing-key early return; if all three artifact files
exist, `indexer.load_index` is looked up (and the run dies there when the
method does not exist), then the loaded index/embeddings sync check —
a mismatch prints an error and falls through to the rebuild branch, a match
searches and returns; otherwise the rebuild branch runs. -/
def mainRunWith (methods : List String) (env : MainEnv) : MainResult :=
  if env.apiKey.isNone then .missingKey
  else if env.artifactsExist then
    if "load_index" ∈ methods then
      if env.loadedVectors.length ≠ env.loadedEmbeddings.length then
        rebuildWith methods env
      else
        .finished (findAndGenerateSuggestions env.loadedEntries
          env.loadedEmbeddings
          { dim := env.loadedDim, vectors := env.loadedVectors }
          env.generate SIMILARITY_THRESHOLD)
    else .attributeError "load_index"
  else rebuildWith methods env

/-- `main()` as shipped: the indexer is a `FAISSHandler`, whose attribute
set is `faissHandlerMethods`. -/
def mainRun (env : MainEnv) : MainResult :=
  mainRunWith faissHandlerMethods env

/-- Two-entry batch (one need from note 0, one availability from note 1)
with a similarity matrix putting the need→availability score at 1/2. -/
def entriesLow : List Entry :=
  [Entry.mk "n" "need" 0, Entry.mk "a" "availability" 1]

/-- Same need, but the availability originates from note 2. -/
def entriesHigh : List Entry :=
  [Entry.mk "n" "need" 0, Entry.mk "a" "availability" 2]

/-- Similarity matrix scoring the (0,1) pair at 1/2. -/
def simLow : Nat → Nat → ℚ := fun i j => if i = 0 ∧ j = 1 then 1/2 else 0

/-- Similarity matrix scoring the (0,1) pair at 9/10. -/
def simHigh : Nat → Nat → ℚ := fun i j => if i = 0 ∧ j = 1 then 9/10 else 0

/-- Environment for runs with all three artifact files present, the loaded
index holding one vector while the loaded embeddings array is empty (out of
sync), and an empty notes file. -/
def envArtifactsDesync : MainEnv :=
  { apiKey := some "key", artifactsExist := true, loadedDim := 384,
    loadedVectors := [[1]], loadedEntries := [], loadedEmbeddings := [],
    notes := [], extract := fun _ => none, embed := fun _ => [],
    generate := fun _ _ => "" }

/-- Environment for fresh-build runs: no artifact files, one note whose
extraction yields one need and one availability. -/
def envRebuild : MainEnv :=
  { apiKey := some "key", artifactsExist := false, loadedDim := 384,
    loadedVectors := [], loadedEntries := [], loadedEmbeddings := [],
    notes := ["note zero"], extract := fun _ => some (["a"], ["b"]),
    embed := fun _ => [1], generate := fun _ _ => "text" }

lemma foldl_append_singleton {α β : Type} (f : α → β) :
    ∀ (l : List α) (acc : List β),
      l.foldl (fun a t => a ++ [f t]) acc = acc ++ l.map f := by
  intro l
  induction l with
  | nil => intro acc; simp
  | cons x xs ih => intro acc; simp [List.foldl_cons, ih]

lemma buildEntries_eq_flat :
    ∀ (nats : List NoteNAT) (acc : List Entry),
      nats.foldl
        (fun acc nat =>
          let acc1 := nat.resources_needed.foldl
            (fun a t => a ++ [Entry.mk t "need" nat.id]) acc
          nat.resources_available.foldl
            (fun a t => a ++ [Entry.mk t "availability" nat.id]) acc1)
        acc
      = acc ++ nats.flatMap (fun nat =>
          nat.resources_needed.map (fun t => Entry.mk t "need" nat.id) ++
          nat.resources_available.map (fun t => Entry.mk t "availability" nat.id)) := by
  intro nats
  induction nats with
  | nil => intro acc; simp
  | cons n ns ih =>
    intro acc
    simp only [List.foldl_cons, List.flatMap_cons]
    rw [ih, foldl_append_singleton, foldl_append_singleton]
    simp [List.append_assoc]

lemma mem_searchFilterAux (threshold : ℚ) :
    ∀ (rows : List (List (ℤ × ℚ))) (i q : Nat) (idx : ℤ) (s : ℚ),
      (q, idx, s) ∈ searchFilterAux threshold i rows ↔
      ∃ j row, rows[j]? = some row ∧ q = i + j ∧ (idx, s) ∈ row ∧
        s > threshold ∧ idx ≠ (q : ℤ) := by
  intro rows
  induction rows with
  | nil => intro i q idx s; simp [searchFilterAux]
  | cons row rest ih =>
    intro i q idx s
    simp only [searchFilterAux, List.mem_append, List.mem_filterMap, ih]
    constructor
    · rintro (⟨⟨a, b⟩, hmem, hsome⟩ | ⟨j, r, hr, hq, hmem, hs, hne⟩)
      · by_cases hc : b > threshold ∧ a ≠ (i : ℤ)
        · simp only [if_pos hc, Option.some.injEq, Prod.mk.injEq] at hsome
          obtain ⟨h1, h2, h3⟩ := hsome
          subst h1; subst h2; subst h3
          exact ⟨0, row, by simp, by omega, hmem, hc.1, hc.2⟩
        · simp [hc] at hsome
      · exact ⟨j + 1, r, by simpa using hr, by omega, hmem, hs, hne⟩
    · rintro ⟨j, r, hr, hq, hmem, hs, hne⟩
      cases j with
      | zero =>
        left
        have hq0 : q = i := by omega
        subst hq0
        simp only [List.getElem?_cons_zero, Option.some.injEq] at hr
        subst hr
        exact ⟨(idx, s), hmem, by simp [hs, hne]⟩
      | succ j0 =>
        right
        exact ⟨j0, r, by simpa using hr, by omega, hmem, hs, hne⟩

lemma mem_searchFilter (rows : List (List (ℤ × ℚ))) (threshold : ℚ)
    (q : Nat) (idx : ℤ) (s : ℚ) :
    (q, idx, s) ∈ searchFilter rows threshold ↔
    ∃ row, rows[q]? = some row ∧ (idx, s) ∈ row ∧ s > threshold ∧ idx ≠ (q : ℤ) := by
  unfold searchFilter
  rw [mem_searchFilterAux]
  constructor
  · rintro ⟨j, row, hr, hq, hmem, hs, hne⟩
    exact ⟨row, by simpa [hq] using hr, hmem, hs, hne⟩
  · rintro ⟨row, hr, hmem, hs, hne⟩
    exact ⟨q, row, hr, by omega, hmem, hs, hne⟩

/-- Every triple the handler's search emits came from a raw hit of the
corresponding query row, scored strictly above the threshold and with a
label different from the row number. -/
lemma mem_FAISSHandler_search (h : FAISSHandler) (query : List (List ℚ))
    (top_k : Nat) (threshold : ℚ) (q : Nat) (idx : ℤ) (s : ℚ) :
    (q, idx, s) ∈ h.search query top_k threshold →
    s > threshold ∧ idx ≠ (q : ℤ) := by
  unfold FAISSHandler.search
  cases hraw : indexFlatIPSearch h.dim h.vectors query top_k with
  | error e => simp
  | ok rows =>
    intro hmem
    rw [mem_searchFilter] at hmem
    obtain ⟨row, _, _, hs, hne⟩ := hmem
    exact ⟨hs, hne⟩

lemma mem_apiSimilarPairs (n : Nat) (sim : Nat → Nat → ℚ) (threshold : ℚ)
    (i j : Nat) (s : ℚ) :
    (i, j, s) ∈ apiSimilarPairs n sim threshold ↔
    i < n ∧ j < n ∧ i ≠ j ∧ sim i j > threshold ∧ s = sim i j := by
  unfold apiSimilarPairs
  simp only [List.mem_flatMap, List.mem_filterMap, List.mem_range]
  constructor
  · rintro ⟨a, ha, b, hb, hsome⟩
    by_cases hc : a ≠ b ∧ sim a b > threshold
    · simp only [if_pos hc, Option.some.injEq, Prod.mk.injEq] at hsome
      obtain ⟨h1, h2, h3⟩ := hsome
      subst h1; subst h2; subst h3
      exact ⟨ha, hb, hc.1, hc.2, rfl⟩
    · simp [hc] at hsome
  · rintro ⟨hi, hj, hne, hs, hval⟩
    subst hval
    exact ⟨i, hi, j, hj, by simp [hne, hs]⟩

lemma foldl_apiStep_eq_apiBuild (entries : List Entry)
    (gen : Nat → Except String String) :
    ∀ (pairs : List (Nat × Nat × ℚ)) (acc : List ApiSuggestion) (sid : Nat),
      (pairs.foldl (apiStep entries gen) (acc, sid)).1 =
      acc ++ apiBuild entries gen acc.length sid pairs := by
  intro pairs
  induction pairs with
  | nil => intro acc sid; simp [apiBuild]
  | cons p rest ih =>
    intro acc sid
    simp only [List.foldl_cons, apiStep, apiBuild]
    cases hp : retainedPair entries p with
    | none => simp [hp, ih acc sid]
    | some e12 =>
      obtain ⟨e1, e2⟩ := e12
      simp only [hp]
      rw [ih]
      simp [List.append_assoc]

lemma findConnections_eq_apiBuild (entries : List Entry)
    (sim : Nat → Nat → ℚ) (gen : Nat → Except String String) :
    findConnections entries sim gen =
    apiBuild entries gen 0 1 (apiSimilarPairs entries.length sim (1 / 1000)) := by
  unfold findConnections
  have := foldl_apiStep_eq_apiBuild entries gen
    (apiSimilarPairs entries.length sim (1 / 1000)) [] 1
  simpa using this

lemma retainedPair_some (entries : List Entry) (p : Nat × Nat × ℚ)
    (e1 e2 : Entry) (hp : retainedPair entries p = some (e1, e2)) :
    entries[p.1]? = some e1 ∧ entries[p.2.1]? = some e2 ∧
    e1.kind = "need" ∧ e2.kind = "availability" := by
  unfold retainedPair at hp
  cases h1 : entries[p.1]? with
  | none => simp [h1] at hp
  | some a =>
    cases h2 : entries[p.2.1]? with
    | none => simp [h1, h2] at hp
    | some b =>
      simp only [h1, h2] at hp
      by_cases hc : a.kind = "need" ∧ b.kind = "availability"
      · rw [if_pos hc] at hp
        injection hp with hpq
        injection hpq with hx hy
        subst hx; subst hy
        exact ⟨rfl, rfl, hc.1, hc.2⟩
      · simp [hc] at hp

lemma retainedPair_none (entries : List Entry) (p : Nat × Nat × ℚ)
    (e1 e2 : Entry) (h1 : entries[p.1]? = some e1) (h2 : entries[p.2.1]? = some e2)
    (hk : ¬(e1.kind = "need" ∧ e2.kind = "availability")) :
    retainedPair entries p = none := by
  unfold retainedPair
  simp [h1, h2, hk]

lemma getElem?_apiBuild (entries : List Entry) (gen : Nat → Except String String) :
    ∀ (pairs : List (Nat × Nat × ℚ)) (calls sid k : Nat) (s : ApiSuggestion),
      (apiBuild entries gen calls sid pairs)[k]? = some s →
      ∃ p e1 e2, p ∈ pairs ∧ retainedPair entries p = some (e1, e2) ∧
        s.id = "sugg_" ++ toString (sid + k) ∧
        s.noteId = toString e1.noteId ∧
        s.need = e1.text ∧
        s.availability = e2.text ∧
        s.suggestion = sgllmGenerate (gen (calls + k)) := by
  intro pairs
  induction pairs with
  | nil => intro calls sid k s hs; simp [apiBuild] at hs
  | cons p rest ih =>
    intro calls sid k s hs
    simp only [apiBuild] at hs
    cases hp : retainedPair entries p with
    | none =>
      rw [hp] at hs
      obtain ⟨p0, e1, e2, hmem, hrest⟩ := ih calls sid k s hs
      exact ⟨p0, e1, e2, List.mem_cons_of_mem _ hmem, hrest⟩
    | some e12 =>
      obtain ⟨e1, e2⟩ := e12
      rw [hp] at hs
      cases k with
      | zero =>
        simp only [List.getElem?_cons_zero, Option.some.injEq] at hs
        subst hs
        exact ⟨p, e1, e2, List.mem_cons_self p rest, hp, by simp, rfl, rfl, rfl, by simp⟩
      | succ k0 =>
        simp only [List.getElem?_cons_succ] at hs
        obtain ⟨p0, f1, f2, hmem, hret, hid, hnid, hneed, havail, hsugg⟩ :=
          ih (calls + 1) (sid + 1) k0 s hs
        refine ⟨p0, f1, f2, List.mem_cons_of_mem _ hmem, hret, ?_, hnid, hneed, havail, ?_⟩
        · rw [hid]; congr 2; omega
        · rw [hsugg]; congr 2; omega

lemma apiBuild_erase_independent (entries : List Entry)
    (g g' : Nat → Except String String) :
    ∀ (pairs : List (Nat × Nat × ℚ)) (calls calls' sid : Nat),
      (apiBuild entries g calls sid pairs).map eraseSuggestionText =
      (apiBuild entries g' calls' sid pairs).map eraseSuggestionText := by
  intro pairs
  induction pairs with
  | nil => intro calls calls' sid; simp [apiBuild]
  | cons p rest ih =>
    intro calls calls' sid
    simp only [apiBuild]
    cases hp : retainedPair entries p with
    | none => exact ih calls calls' sid
    | some e12 =>
      obtain ⟨e1, e2⟩ := e12
      simp only [List.map_cons, eraseSuggestionText]
      rw [ih (calls + 1) (calls' + 1) (sid + 1)]

lemma topK_nil (k : Nat) : topK [] k = List.replicate k (-1, negFltMax) := by
  simp [topK, sortScoresDesc, List.enum]

lemma searchFilterAux_nil_of_le (threshold : ℚ) :
    ∀ (rows : List (List (ℤ × ℚ))) (i : Nat),
      (∀ row ∈ rows, ∀ p ∈ row, p.2 ≤ threshold) →
      searchFilterAux threshold i rows = [] := by
  intro rows
  induction rows with
  | nil => intro i _; rfl
  | cons row rest ih =>
    intro i hle
    simp only [searchFilterAux, List.append_eq_nil]
    constructor
    · rw [List.filterMap_eq_nil_iff]
      intro p hp
      have hple := hle row (List.mem_cons_self row rest) p hp
      have hnot : ¬ (p.2 > threshold ∧ p.1 ≠ (i : ℤ)) := by
        intro hcon
        exact absurd hple (not_le.mpr hcon.1)
      simp [hnot]
    · exact ih (i + 1) (fun r hr => hle r (List.mem_cons_of_mem _ hr))

/-- C4: the Entry Builder visits notes in note-index order and, within each
note, appends one entry per need phrase (kind `"need"`) followed by one
entry per availability phrase (kind `"availability"`), so list positions
0, 1, 2, ... are assigned in exactly that order; in particular the notes
`[{needs:["a"], avail:["b"]}, {needs:[], avail:["c"]}]` flatten to
`a(need,note0,pos0), b(availability,note0,pos1), c(availability,note1,pos2)`. -/
theorem c4_entry_builder_order :
    (∀ nats : List NoteNAT,
      buildEntries nats = nats.flatMap (fun nat =>
        nat.resources_needed.map (fun t => Entry.mk t "need" nat.id) ++
        nat.resources_available.map (fun t => Entry.mk t "availability" nat.id)))
    ∧ buildEntries [NoteNAT.mk ["a"] ["b"] 0, NoteNAT.mk [] ["c"] 1] =
        [Entry.mk "a" "need" 0, Entry.mk "b" "availability" 0,
         Entry.mk "c" "availability" 1] := by
  constructor
  · intro nats
    have := buildEntries_eq_flat nats []
    simpa [buildEntries] using this
  · decide

/-- C1: in both orchestrators (`find_and_generate_suggestions` in
`src/main.py` and `find_connections_and_generate_suggestions` in
`src/api.py`), a suggestion is produced from a search triple only when the
entry at the query position has kind `"need"` and the entry at the result
position has kind `"availability"`; every other kind combination is
silently dropped (the pair contributes nothing and the loop continues). -/
theorem c1_directional_type_filter :
    (∀ (entries : List Entry) (gen : String → String → String)
       (p : Nat × ℤ × ℚ) (out : String × String × String × ℚ),
        suggestOne entries gen p = some out →
        ∃ e1 e2, entries[p.1]? = some e1 ∧ pyGet entries p.2.1 = some e2 ∧
          e1.kind = "need" ∧ e2.kind = "availability")
    ∧ (∀ (entries : List Entry) (gen : String → String → String)
         (p : Nat × ℤ × ℚ) (e1 e2 : Entry),
          entries[p.1]? = some e1 → pyGet entries p.2.1 = some e2 →
          ¬(e1.kind = "need" ∧ e2.kind = "availability") →
          suggestOne entries gen p = none)
    ∧ (∀ (entries : List Entry) (gen : String → String → String)
         (p : Nat × ℤ × ℚ) (rest : List (Nat × ℤ × ℚ)),
          suggestOne entries gen p = none →
          suggestFromPairs entries gen (p :: rest) = suggestFromPairs entries gen rest)
    ∧ (∀ (entries : List Entry) (sim : Nat → Nat → ℚ)
         (gen : Nat → Except String String) (s : ApiSuggestion),
          s ∈ findConnections entries sim gen →
          ∃ p e1 e2, retainedPair entries p = some (e1, e2) ∧
            entries[p.1]? = some e1 ∧ entries[p.2.1]? = some e2 ∧
            e1.kind = "need" ∧ e2.kind = "availability" ∧
            s.need = e1.text ∧ s.availability = e2.text)
    ∧ (∀ (entries : List Entry) (p : Nat × Nat × ℚ) (e1 e2 : Entry),
          entries[p.1]? = some e1 → entries[p.2.1]? = some e2 →
          ¬(e1.kind = "need" ∧ e2.kind = "availability") →
          retainedPair entries p = none) := by
  refine ⟨?_, ?_, ?_, ?_, ?_⟩
  · intro entries gen p out hsome
    unfold suggestOne at hsome
    cases h1 : entries[p.1]? with
    | none => simp [h1] at hsome
    | some e1 =>
      cases h2 : pyGet entries p.2.1 with
      | none => simp [h1, h2] at hsome
      | some e2 =>
        simp only [h1, h2] at hsome
        by_cases hc : e1.kind = "need" ∧ e2.kind = "availability"
        · exact ⟨e1, e2, rfl, rfl, hc.1, hc.2⟩
        · simp [hc] at hsome
  · intro entries gen p e1 e2 h1 h2 hk
    unfold suggestOne
    simp [h1, h2, hk]
  · intro entries gen p rest hnone
    simp [suggestFromPairs, List.filterMap_cons, hnone]
  · intro entries sim gen s hmem
    rw [findConnections_eq_apiBuild] at hmem
    rw [List.mem_iff_getElem?] at hmem
    obtain ⟨k, hk⟩ := hmem
    obtain ⟨p, e1, e2, hp, hret, _, _, hneed, havail, _⟩ :=
      getElem?_apiBuild entries gen _ 0 1 k s hk
    obtain ⟨hl1, hl2, hk1, hk2⟩ := retainedPair_some entries p e1 e2 hret
    exact ⟨p, e1, e2, hret, hl1, hl2, hk1, hk2, hneed, havail⟩
  · intro entries p e1 e2 h1 h2 hk
    exact retainedPair_none entries p e1 e2 h1 h2 hk

/-- Witness for C1: a need→need pair produces no suggestion in the
`main.py` loop, by the second conjunct of the theorem at a concrete input. -/
theorem c1_directional_type_filter_witness :
    suggestOne [Entry.mk "x" "need" 0] (fun a _ => a) (0, 0, 1) = none :=
  c1_directional_type_filter.2.1 [Entry.mk "x" "need" 0] (fun a _ => a)
    (0, 0, 1) (Entry.mk "x" "need" 0) (Entry.mk "x" "need" 0)
    (by decide) (by decide) (by decide)

/-- C2: when the query batch is the stored-vector batch itself (the
self-similarity topology of the pipeline), no filtered triple has result
position equal to query position — in `FAISSHandler.search` and likewise in
the api.py similarity-matrix loop — even though the raw top-1 hit of each
query row is the row itself at the maximum score (shown concretely on a
two-vector unit batch, where the raw rows lead with the self hits at score
1 yet the filtered output carries no self pair). -/
theorem c2_no_self_match :
    (∀ (h : FAISSHandler) (top_k : Nat) (threshold : ℚ)
       (q : Nat) (idx : ℤ) (s : ℚ),
        (q, idx, s) ∈ h.search h.vectors top_k threshold → idx ≠ (q : ℤ))
    ∧ (∀ (n : Nat) (sim : Nat → Nat → ℚ) (threshold : ℚ) (i j : Nat) (s : ℚ),
        (i, j, s) ∈ apiSimilarPairs n sim threshold → i ≠ j)
    ∧ (indexFlatIPSearch 2 [[1,0],[0,1]] [[1,0],[0,1]] 5 =
        .ok [[(0,1),(1,0),(-1,negFltMax),(-1,negFltMax),(-1,negFltMax)],
             [(1,1),(0,0),(-1,negFltMax),(-1,negFltMax),(-1,negFltMax)]])
    ∧ FAISSHandler.search ⟨2, [[1,0],[0,1]]⟩ [[1,0],[0,1]] 5 (3/10) = [] := by
  refine ⟨?_, ?_, ?_, ?_⟩
  · intro h top_k threshold q idx s hmem
    exact (mem_FAISSHandler_search h h.vectors top_k threshold q idx s hmem).2
  · intro n sim threshold i j s hmem
    exact ((mem_apiSimilarPairs n sim threshold i j s).mp hmem).2.2.1
  · norm_num [indexFlatIPSearch, topK, sortScoresDesc, insertScoreDesc,
      innerProduct, negFltMax, List.enum, List.replicate]
  · norm_num [FAISSHandler.search, indexFlatIPSearch, topK, sortScoresDesc,
      insertScoreDesc, innerProduct, searchFilter, searchFilterAux, negFltMax,
      List.enum, List.replicate, List.filterMap_cons]

/-- Witness for C2: both universal conjuncts applied to concrete members of
a self-similarity search and of the api pair loop. -/
theorem c2_no_self_match_witness :
    ((0 : ℕ) ≠ (1 : ℕ)) ∧ ((0 : ℤ) ≠ ((1 : Nat) : ℤ)) :=
  ⟨c2_no_self_match.2.1 2 (fun _ _ => 1) (1/2) 0 1 1
      ((mem_apiSimilarPairs 2 (fun _ _ => 1) (1/2) 0 1 1).mpr (by norm_num)),
   c2_no_self_match.1 ⟨1, [[1],[0]]⟩ 5 (-(1/2)) 1 0 0
      (by norm_num [FAISSHandler.search, indexFlatIPSearch, topK, sortScoresDesc,
        insertScoreDesc, innerProduct, searchFilter, searchFilterAux, negFltMax,
        List.enum, List.replicate, List.filterMap_cons])⟩

/-- C3: a raw hit is admitted into the filtered result set exactly when its
score strictly exceeds the threshold (given it passed the positional
self-exclusion); the same strict comparison governs the api.py similarity
loop. Concretely, with threshold `0.3`, a stored vector scoring exactly
`0.3` is excluded while one scoring `0.30001` is included. -/
theorem c3_strict_threshold :
    (∀ (rows : List (List (ℤ × ℚ))) (threshold : ℚ) (i : Nat) (idx : ℤ)
       (s : ℚ) (row : List (ℤ × ℚ)),
        rows[i]? = some row → (idx, s) ∈ row → idx ≠ (i : ℤ) →
        ((i, idx, s) ∈ searchFilter rows threshold ↔ s > threshold))
    ∧ (∀ (n : Nat) (sim : Nat → Nat → ℚ) (threshold : ℚ) (i j : Nat),
        i < n → j < n → i ≠ j →
        ((i, j, sim i j) ∈ apiSimilarPairs n sim threshold ↔
          sim i j > threshold))
    ∧ FAISSHandler.search ⟨1, [[3/10],[30001/100000]]⟩ [[1]] 5 (3/10) =
        [(0, 1, 30001/100000)] := by
  refine ⟨?_, ?_, ?_⟩
  · intro rows threshold i idx s row hrow hmem hne
    rw [mem_searchFilter]
    constructor
    · rintro ⟨r, _, _, hs, _⟩
      exact hs
    · intro hs
      exact ⟨row, hrow, hmem, hs, hne⟩
  · intro n sim threshold i j hi hj hne
    rw [mem_apiSimilarPairs]
    constructor
    · rintro ⟨_, _, _, hs, _⟩
      exact hs
    · intro hs
      exact ⟨hi, hj, hne, hs, rfl⟩
  · norm_num [FAISSHandler.search, indexFlatIPSearch, topK, sortScoresDesc,
      insertScoreDesc, innerProduct, searchFilter, searchFilterAux, negFltMax,
      List.enum, List.replicate, List.filterMap_cons]

/-- Witness for C3: both boundary sides at threshold `3/10`, through the
first two conjuncts at concrete inputs. -/
theorem c3_strict_threshold_witness :
    ((0, 5, (300001/1000000 : ℚ)) ∈
        searchFilter [[((5 : ℤ), (300001/1000000 : ℚ))]] (3/10) ↔
      (300001/1000000 : ℚ) > 3/10)
    ∧ ((0, 5, (3/10 : ℚ)) ∈ searchFilter [[((5 : ℤ), (3/10 : ℚ))]] (3/10) ↔
        (3/10 : ℚ) > 3/10)
    ∧ ((0, 1, (1/2 : ℚ)) ∈ apiSimilarPairs 2 (fun _ _ => 1/2) (3/10) ↔
        (1/2 : ℚ) > 3/10) :=
  ⟨c3_strict_threshold.1 [[((5 : ℤ), (300001/1000000 : ℚ))]] (3/10) 0 5
      (300001/1000000) [((5 : ℤ), (300001/1000000 : ℚ))] rfl (by simp) (by decide),
   c3_strict_threshold.1 [[((5 : ℤ), (3/10 : ℚ))]] (3/10) 0 5
      (3/10) [((5 : ℤ), (3/10 : ℚ))] rfl (by simp) (by decide),
   c3_strict_threshold.2.1 2 (fun _ _ => 1/2) (3/10) 0 1
      (by decide) (by decide) (by decide)⟩

/-- C10: the self-exclusion in `FAISSHandler.search` compares the stored
vector's label to the query's row number, not to vector identity: for every
query batch (including ones distinct from the stored vectors) no returned
triple for row `i` has result label `i`. Concretely, querying a two-vector
corpus with the single external query `[1,0]`: the raw top-1 for row 0 is
stored position 0 at score 1, yet the filtered output keeps only the
position-1 hit — the legitimate best match is silently dropped. -/
theorem c10_rowwise_self_exclusion :
    (∀ (h : FAISSHandler) (query : List (List ℚ)) (top_k : Nat)
       (threshold : ℚ) (q : Nat) (idx : ℤ) (s : ℚ),
        (q, idx, s) ∈ h.search query top_k threshold → idx ≠ (q : ℤ))
    ∧ (indexFlatIPSearch 2 [[1,0],[0,1]] [[1,0]] 5 =
        .ok [[(0,1),(1,0),(-1,negFltMax),(-1,negFltMax),(-1,negFltMax)]])
    ∧ FAISSHandler.search ⟨2, [[1,0],[0,1]]⟩ [[1,0]] 5 (-(1/2)) =
        [(0, 1, 0)] := by
  refine ⟨?_, ?_, ?_⟩
  · intro h query top_k threshold q idx s hmem
    exact (mem_FAISSHandler_search h query top_k threshold q idx s hmem).2
  · norm_num [indexFlatIPSearch, topK, sortScoresDesc, insertScoreDesc,
      innerProduct, negFltMax, List.enum, List.replicate]
  · norm_num [FAISSHandler.search, indexFlatIPSearch, topK, sortScoresDesc,
      insertScoreDesc, innerProduct, searchFilter, searchFilterAux, negFltMax,
      List.enum, List.replicate, List.filterMap_cons]

/-- Witness for C10: the first conjunct applied to a concrete member of a
query-vs-corpus search. -/
theorem c10_rowwise_self_exclusion_witness :
    ((1 : ℤ) ≠ ((0 : Nat) : ℤ)) :=
  c10_rowwise_self_exclusion.1 ⟨2, [[1,0],[0,1]]⟩ [[1,0]] 5 (-(1/2)) 0 1 0
    (by norm_num [FAISSHandler.search, indexFlatIPSearch, topK, sortScoresDesc,
      insertScoreDesc, innerProduct, searchFilter, searchFilterAux, negFltMax,
      List.enum, List.replicate, List.filterMap_cons])

/-- C8 (amended): a query batch containing a row of the wrong dimension
makes the raw FAISS search fail, but `FAISSHandler.search` catches the
error and returns an empty result list — the failure is logged, not
surfaced; searching an index with zero stored vectors returns an empty
result set without error (for any threshold at or above the padding
score `-FLT_MAX`, hence for every value a float32 threshold can take). -/
theorem c8_dim_error_caught_empty_index_empty :
    (∀ (h : FAISSHandler) (query : List (List ℚ)) (top_k : Nat)
       (threshold : ℚ),
        query.all (fun qv => qv.length = h.dim) = false →
        indexFlatIPSearch h.dim h.vectors query top_k =
          .error "query dimension mismatch" ∧
        h.search query top_k threshold = [])
    ∧ (∀ (dim : Nat) (query : List (List ℚ)) (top_k : Nat) (threshold : ℚ),
        negFltMax ≤ threshold →
        FAISSHandler.search ⟨dim, []⟩ query top_k threshold = []) := by
  constructor
  · intro h query top_k threshold hall
    have herr : indexFlatIPSearch h.dim h.vectors query top_k =
        .error "query dimension mismatch" := by
      unfold indexFlatIPSearch
      simp [hall]
    refine ⟨herr, ?_⟩
    unfold FAISSHandler.search
    rw [herr]
  · intro dim query top_k threshold hth
    unfold FAISSHandler.search indexFlatIPSearch
    by_cases hall : query.all (fun q => q.length = dim)
    · simp only [hall, if_pos]
      unfold searchFilter
      apply searchFilterAux_nil_of_le
      intro row hrow p hp
      simp only [List.map_nil, List.mem_map] at hrow
      obtain ⟨q, _, hq⟩ := hrow
      rw [topK_nil] at hq
      subst hq
      rw [List.eq_of_mem_replicate hp]
      exact hth
    · simp [hall]

/-- Counterexample for C8 as stated: a wrong-dimension query is NOT fatal —
the raw search errors, yet `FAISSHandler.search` swallows the error and
returns the ordinary empty result, indistinguishable from a successful
empty search. -/
theorem c8_wrong_dim_not_fatal_counterexample :
    indexFlatIPSearch 2 [[1,0]] [[1,0,0]] 5 = .error "query dimension mismatch"
    ∧ FAISSHandler.search ⟨2, [[1,0]]⟩ [[1,0,0]] 5 (3/10) = [] := by
  constructor
  · norm_num [indexFlatIPSearch]
  · norm_num [FAISSHandler.search, indexFlatIPSearch]

/-- Witness for C8 (amended): both conjuncts at concrete inputs. -/
theorem c8_dim_error_caught_empty_index_empty_witness :
    (indexFlatIPSearch 2 [[1,0]] [[1,0,0]] 5 = .error "query dimension mismatch"
      ∧ FAISSHandler.search ⟨2, [[1,0]]⟩ [[1,0,0]] 5 (3/10) = [])
    ∧ FAISSHandler.search ⟨384, []⟩ [[1]] 5 (3/10) = [] :=
  ⟨c8_dim_error_caught_empty_index_empty.1 ⟨2, [[1,0]]⟩ [[1,0,0]] 5 (3/10)
      (by norm_num),
   c8_dim_error_caught_empty_index_empty.2 384 [[1]] 5 (3/10)
      (by norm_num [negFltMax])⟩

/-- Counterexample for C5 as stated: two runs whose sole retained Match
differs in similarity score (1/2 vs 9/10) and in the availability's note id
(1 vs 2) produce byte-identical suggestion records — the api record carries
neither the similarity score nor the availability's note identifier. -/
theorem c5_score_and_avail_note_not_exposed :
    findConnections entriesLow simLow (fun _ => .ok "T") =
      findConnections entriesHigh simHigh (fun _ => .ok "T")
    ∧ findConnections entriesLow simLow (fun _ => .ok "T") =
        [ApiSuggestion.mk "sugg_1" "0" "n" "a" "T"]
    ∧ simLow 0 1 = 1/2 ∧ simHigh 0 1 = 9/10
    ∧ entriesLow[1]? = some (Entry.mk "a" "availability" 1)
    ∧ entriesHigh[1]? = some (Entry.mk "a" "availability" 2) := by
  have h1 : findConnections entriesLow simLow (fun _ => .ok "T") =
      [ApiSuggestion.mk "sugg_1" "0" "n" "a" "T"] := by
    norm_num [findConnections, apiSimilarPairs, apiStep, retainedPair,
      sgllmGenerate, entriesLow, simLow, List.range_succ,
      List.filterMap_cons, List.foldl_cons]
    decide
  have h2 : findConnections entriesHigh simHigh (fun _ => .ok "T") =
      [ApiSuggestion.mk "sugg_1" "0" "n" "a" "T"] := by
    norm_num [findConnections, apiSimilarPairs, apiStep, retainedPair,
      sgllmGenerate, entriesHigh, simHigh, List.range_succ,
      List.filterMap_cons, List.foldl_cons]
    decide
  exact ⟨h1.trans h2.symm, h1, by norm_num [simLow], by norm_num [simHigh],
    by simp [entriesLow], by simp [entriesHigh]⟩

/-- C5 (amended): each api suggestion record is correctly paired with the
retained Match it came from — identifier `sugg_(k+1)` for the k-th record,
the need entry's text and note id, the availability entry's text, and the
k-th generator outcome — but the record contains neither the similarity
score nor the availability's note id (see the counterexample). -/
theorem c5_suggestion_record_pairing :
    ∀ (entries : List Entry) (sim : Nat → Nat → ℚ)
      (gen : Nat → Except String String) (k : Nat) (s : ApiSuggestion),
      (findConnections entries sim gen)[k]? = some s →
      ∃ p e1 e2, p ∈ apiSimilarPairs entries.length sim (1/1000) ∧
        retainedPair entries p = some (e1, e2) ∧
        e1.kind = "need" ∧ e2.kind = "availability" ∧
        s.id = "sugg_" ++ toString (k + 1) ∧
        s.noteId = toString e1.noteId ∧
        s.need = e1.text ∧ s.availability = e2.text ∧
        s.suggestion = sgllmGenerate (gen k) := by
  intro entries sim gen k s hk
  rw [findConnections_eq_apiBuild] at hk
  obtain ⟨p, e1, e2, hp, hret, hid, hnid, hneed, havail, hsugg⟩ :=
    getElem?_apiBuild entries gen _ 0 1 k s hk
  obtain ⟨_, _, hk1, hk2⟩ := retainedPair_some entries p e1 e2 hret
  refine ⟨p, e1, e2, hp, hret, hk1, hk2, ?_, hnid, hneed, havail, ?_⟩
  · rw [Nat.add_comm k 1]; exact hid
  · simpa using hsugg

/-- Witness for C5 (amended): the theorem applied to the concrete low-score
run at record index 0. -/
theorem c5_suggestion_record_pairing_witness :
    ∃ p e1 e2,
      p ∈ apiSimilarPairs entriesLow.length simLow (1/1000) ∧
      retainedPair entriesLow p = some (e1, e2) ∧
      e1.kind = "need" ∧ e2.kind = "availability" ∧
      (ApiSuggestion.mk "sugg_1" "0" "n" "a" "T").id =
        "sugg_" ++ toString (0 + 1) ∧
      (ApiSuggestion.mk "sugg_1" "0" "n" "a" "T").noteId =
        toString e1.noteId ∧
      (ApiSuggestion.mk "sugg_1" "0" "n" "a" "T").need = e1.text ∧
      (ApiSuggestion.mk "sugg_1" "0" "n" "a" "T").availability = e2.text ∧
      (ApiSuggestion.mk "sugg_1" "0" "n" "a" "T").suggestion =
        sgllmGenerate ((fun _ => Except.ok "T") 0) :=
  c5_suggestion_record_pairing entriesLow simLow (fun _ => .ok "T") 0
    (ApiSuggestion.mk "sugg_1" "0" "n" "a" "T")
    (by norm_num [findConnections, apiSimilarPairs, apiStep, retainedPair,
        sgllmGenerate, entriesLow, simLow, List.range_succ,
        List.filterMap_cons, List.foldl_cons]
        <;> decide)

/-- C6: suggestion-generation failure is isolated per Match: a transport or
parsing failure makes `sgllm.generate` return its fixed fallback string
(first conjunct); the generator outcomes cannot change which records are
produced, their count, order, or any field other than the suggestion text
(second conjunct); and each record's suggestion text depends only on its
own call's outcome (third conjunct) — so one failing call never drops or
alters the other Matches' suggestions, and no error escapes the loop. -/
theorem c6_generator_failure_isolation :
    (∀ e : String, sgllmGenerate (.error e) =
        "Could not generate a suggestion due to an error.")
    ∧ (∀ (entries : List Entry) (sim : Nat → Nat → ℚ)
         (g g' : Nat → Except String String),
        (findConnections entries sim g).map eraseSuggestionText =
          (findConnections entries sim g').map eraseSuggestionText)
    ∧ (∀ (entries : List Entry) (sim : Nat → Nat → ℚ)
         (g : Nat → Except String String) (k : Nat) (s : ApiSuggestion),
        (findConnections entries sim g)[k]? = some s →
        s.suggestion = sgllmGenerate (g k)) := by
  refine ⟨fun e => rfl, ?_, ?_⟩
  · intro entries sim g g'
    rw [findConnections_eq_apiBuild, findConnections_eq_apiBuild]
    exact apiBuild_erase_independent entries g g' _ 0 0 1
  · intro entries sim g k s hk
    rw [findConnections_eq_apiBuild] at hk
    obtain ⟨_, _, _, _, _, _, _, _, _, hsugg⟩ :=
      getElem?_apiBuild entries g _ 0 1 k s hk
    simpa using hsugg

/-- Witness for C6: the third conjunct applied to a concrete run whose only
generator call fails, showing the record carries the fixed fallback text. -/
theorem c6_generator_failure_isolation_witness :
    (ApiSuggestion.mk "sugg_1" "0" "n" "a"
        "Could not generate a suggestion due to an error.").suggestion =
      sgllmGenerate ((fun _ => Except.error "boom") 0) :=
  c6_generator_failure_isolation.2.2 entriesLow simLow
    (fun _ => .error "boom") 0
    (ApiSuggestion.mk "sugg_1" "0" "n" "a"
      "Could not generate a suggestion due to an error.")
    (by norm_num [findConnections, apiSimilarPairs, apiStep, retainedPair,
        sgllmGenerate, entriesLow, simLow, List.range_succ,
        List.filterMap_cons, List.foldl_cons]
        <;> decide)

/-- Counterexample for C7 as stated: with the persistence methods in place
(the only way the sync check is reachable at all), a desynchronized
index/embeddings pair does not abort the run — `main` logs the mismatch and
falls through to the rebuild branch, here ending in the perfectly ordinary
"no notes found" early return. -/
theorem c7_desync_not_fatal_counterexample :
    envArtifactsDesync.loadedVectors.length ≠
      envArtifactsDesync.loadedEmbeddings.length
    ∧ mainRunWith faissMethodsWithPersistence envArtifactsDesync =
        .noNotes := by
  constructor
  · decide
  · rfl

/-- C7 (amended): when the loaded vector count differs from the loaded
embeddings count, `main` prints an out-of-sync error and falls through to
rebuilding the index from scratch — the run continues instead of aborting
on the desynchronization. (In the code as shipped the check is not even
reachable: every artifacts-present run dies earlier with `AttributeError`
on the missing `load_index` method, desynchronized or not.) -/
theorem c7_desync_rebuilds_rather_than_aborts :
    ∀ env : MainEnv, env.apiKey.isSome = true → env.artifactsExist = true →
      env.loadedVectors.length ≠ env.loadedEmbeddings.length →
      mainRunWith faissMethodsWithPersistence env =
        rebuildWith faissMethodsWithPersistence env
      ∧ mainRun env = .attributeError "load_index" := by
  intro env hkey hart hdesync
  have hk : env.apiKey.isNone = false := by
    cases h : env.apiKey <;> simp_all
  constructor
  · simp [mainRunWith, hk, hart, hdesync, faissMethodsWithPersistence,
      faissHandlerMethods]
  · simp [mainRun, mainRunWith, hk, hart, faissHandlerMethods]

/-- Witness for C7 (amended): the theorem at the concrete desynchronized
environment. -/
theorem c7_desync_rebuilds_rather_than_aborts_witness :
    mainRunWith faissMethodsWithPersistence envArtifactsDesync =
      rebuildWith faissMethodsWithPersistence envArtifactsDesync
    ∧ mainRun envArtifactsDesync = .attributeError "load_index" :=
  c7_desync_rebuilds_rather_than_aborts envArtifactsDesync rfl rfl (by decide)

/-- C9: every run of `main()` that reaches a persistence step crashes with
`AttributeError` before emitting any suggestion: the preload branch dies
looking up `load_index`, the fresh-build branch (notes and entries present)
dies looking up `save_index` before `find_and_generate_suggestions`, and
consequently no run of `main` whatsoever finishes the suggestion loop. -/
theorem c9_main_crashes_before_any_suggestion :
    ∀ env : MainEnv,
      (env.apiKey.isSome = true → env.artifactsExist = true →
        mainRun env = .attributeError "load_index")
      ∧ (env.apiKey.isSome = true → env.artifactsExist = false →
          env.notes ≠ [] → buildEntries (natsOf env) ≠ [] →
          mainRun env = .attributeError "save_index")
      ∧ (∀ panels, mainRun env ≠ .finished panels) := by
  intro env
  refine ⟨?_, ?_, ?_⟩
  · intro hkey hart
    have hk : env.apiKey.isNone = false := by
      cases h : env.apiKey <;> simp_all
    simp [mainRun, mainRunWith, hk, hart, faissHandlerMethods]
  · intro hkey hart hnotes hentries
    have hk : env.apiKey.isNone = false := by
      cases h : env.apiKey <;> simp_all
    have hn : env.notes.isEmpty = false := by
      simpa [List.isEmpty_iff] using hnotes
    have he : (buildEntries (natsOf env)).isEmpty = false := by
      simpa [List.isEmpty_iff] using hentries
    simp [mainRun, mainRunWith, rebuildWith, hk, hart, hn, he,
      faissHandlerMethods]
  · intro panels
    unfold mainRun mainRunWith rebuildWith
    by_cases hk : env.apiKey.isNone <;> by_cases ha : env.artifactsExist <;>
      by_cases hn : env.notes.isEmpty <;>
      by_cases he : (buildEntries (natsOf env)).isEmpty <;>
      simp [hk, ha, hn, he, faissHandlerMethods]

/-- Witness for C9: both crash branches at concrete environments. -/
theorem c9_main_crashes_before_any_suggestion_witness :
    mainRun envArtifactsDesync = .attributeError "load_index"
    ∧ mainRun envRebuild = .attributeError "save_index" :=
  ⟨(c9_main_crashes_before_any_suggestion envArtifactsDesync).1 rfl rfl,
   (c9_main_crashes_before_any_suggestion envRebuild).2.1 rfl rfl
      (by decide) (by decide)⟩
